import Mathlib

/-!
Verification development for the mod_auth_urs URS OAuth2 module.

The repository ships the interface header `mod_auth_urs.h`.  The C
implementation files are not part of the source tree, so every operation
below is modelled from the specification (and from the contracts documented
on the declarations in the header), and the specified properties are then
proved about that model.
-/

/-! ### URL encoding and decoding (http helpers) -/

/-- Modelled from the spec: the implementation of `url_encode` is not in
src/.  The set of reserved characters that `url_encode` maps to their
percent-encoded equivalent. -/
def reservedChars : List Char :=
  [' ', '!', '#', '$', '%', '&', '\x27', '(', ')', '*', '+', ',', '/',
   ':', ';', '<', '=', '>', '?', '@', '[', '\\', ']', '\x22']

/-- Whether a character is reserved and therefore percent-encoded. -/
def isReserved (c : Char) : Bool :=
  reservedChars.contains c

/-- Uppercase hexadecimal digit for a value below 16. -/
def hexDigitChar (n : Nat) : Char :=
  if n < 10 then Char.ofNat (48 + n) else Char.ofNat (55 + n)

/-- Numeric value of a hexadecimal digit character, if it is one. -/
def hexVal (c : Char) : Option Nat :=
  if 48 ≤ c.toNat ∧ c.toNat ≤ 57 then some (c.toNat - 48)
  else if 65 ≤ c.toNat ∧ c.toNat ≤ 70 then some (c.toNat - 55)
  else if 97 ≤ c.toNat ∧ c.toNat ≤ 102 then some (c.toNat - 87)
  else none

/-- Modelled from the spec: the implementation of `url_encode` is not in
src/.  Maps reserved characters in a string to their percent-hex
equivalent, leaving all other characters untouched (header contract:
"maps reserved characters in a string to their % equivalent"). -/
def url_encode : List Char → List Char
  | [] => []
  | c :: rest =>
    if isReserved c then
      '%' :: hexDigitChar (c.toNat / 16) :: hexDigitChar (c.toNat % 16) :: url_encode rest
    else
      c :: url_encode rest

/-- Modelled from the spec: the implementation of `url_decode` is not in
src/.  Maps percent-encoded characters back to their character
equivalent, leaving everything else (including a malformed percent
sequence) untouched. -/
def url_decode : List Char → List Char
  | [] => []
  | c :: rest =>
    if c = '%' then
      match rest with
      | a :: b :: rest2 =>
        match hexVal a, hexVal b with
        | some x, some y => Char.ofNat (16 * x + y) :: url_decode rest2
        | _, _ => c :: a :: b :: url_decode rest2
      | _ => c :: rest
    else
      c :: url_decode rest

/-! ### Query parameter and cookie extraction (http helpers) -/

/-- Splits a character list on a separator character.  A list with no
separator yields a single segment. -/
def split_on (sep : Char) : List Char → List (List Char)
  | [] => [[]]
  | c :: rest =>
    let r := split_on sep rest
    if c = sep then [] :: r
    else
      match r with
      | h :: t => (c :: h) :: t
      | [] => [[c]]

/-- Splits a character list at the first occurrence of a separator,
returning the part before it and the part after it.  When the separator
does not occur, the second part is empty. -/
def split_first (sep : Char) : List Char → List Char × List Char
  | [] => ([], [])
  | c :: rest =>
    if c = sep then ([], rest)
    else
      let p := split_first sep rest
      (c :: p.1, p.2)

/-- Whitespace test used when skipping separators in headers and JSON. -/
def isWsChar (c : Char) : Bool :=
  (c == ' ') || (c == '\t') || (c == '\n') || (c == '\r')

/-- Modelled from the spec: the implementation of the query-string
splitter is not in src/.  Parses a raw query string into name/value
pairs, splitting on ampersands and on the first equals sign. -/
def parse_query (args : String) : List (String × String) :=
  (split_on '&' args.data).map
    (fun p => (String.mk (split_first '=' p).1, String.mk (split_first '=' p).2))

/-- Modelled from the spec: the implementation of the cookie-header
splitter is not in src/.  Parses a Cookie header into name/value pairs,
splitting on semicolons, dropping leading blanks, and splitting each
pair on the first equals sign. -/
def parse_cookies (header : String) : List (String × String) :=
  (split_on ';' header.data).map
    (fun p =>
      let q := split_first '=' (p.dropWhile isWsChar)
      (String.mk q.1, String.mk q.2))

/-- First value bound to a name in a name/value table. -/
def table_get : List (String × String) → String → Option String
  | [], _ => none
  | (k, v) :: rest, name => if k = name then some v else table_get rest name

/-- Modelled from the spec: the implementation of `get_query_param` is
not in src/.  Header contract: returns "a pointer to the query parameter
value, or NULL if it did not exist or was empty". -/
def get_query_param (args : String) (parameter : String) : Option String :=
  match table_get (parse_query args) parameter with
  | some v => if v = "" then none else some v
  | none => none

/-- Modelled from the spec: the implementation of `get_cookie` is not in
src/.  Header contract: returns "a pointer to the cookie value, or NULL
if it did not exist or was empty". -/
def get_cookie (cookieHeader : String) (cookie_name : String) : Option String :=
  match table_get (parse_cookies cookieHeader) cookie_name with
  | some v => if v = "" then none else some v
  | none => none

/-! ### Minimal JSON -/

/-- JSON document: a tagged variant over string, number, object, array,
boolean and null, mirroring the `json_type` enumeration of the header. -/
inductive json where
  | str : String → json
  | num : Int → json
  | obj : List (String × json) → json
  | arr : List json → json
  | boolean : Bool → json
  | null : json

/-- JSON member type enumeration from the header. -/
inductive json_type where
  | json_string
  | json_number
  | json_object
  | json_array
  | json_boolean
  | json_null
deriving DecidableEq

/-- Skips leading whitespace. -/
def skipWs : List Char → List Char
  | [] => []
  | c :: rest => if isWsChar c then skipWs rest else c :: rest

/-- Replacement for a backslash escape inside a JSON string. -/
def escChar (c : Char) : Char :=
  if c = 'n' then '\n' else if c = 't' then '\t' else if c = 'r' then '\r' else c

/-- Parses the body of a JSON string after its opening quote, up to and
including the closing quote.  Fails on an unterminated string. -/
def parseStringChars : Nat → List Char → Option (List Char × List Char)
  | 0, _ => none
  | _ + 1, [] => none
  | fuel + 1, c :: rest =>
    if c = '\x22' then some ([], rest)
    else if c = '\\' then
      match rest with
      | e :: rest2 =>
        match parseStringChars fuel rest2 with
        | some (cs, r) => some (escChar e :: cs, r)
        | none => none
      | [] => none
    else
      match parseStringChars fuel rest with
      | some (cs, r) => some (c :: cs, r)
      | none => none

/-- Decimal digit test. -/
def isDigitChar (c : Char) : Bool :=
  (48 ≤ c.toNat) && (c.toNat ≤ 57)

/-- Longest leading run of decimal digits and the remaining input. -/
def takeDigits : List Char → List Char × List Char
  | [] => ([], [])
  | c :: rest =>
    if isDigitChar c then
      let p := takeDigits rest
      (c :: p.1, p.2)
    else ([], c :: rest)

/-- Value of a digit run, most significant digit first. -/
def digitsToNat : Nat → List Char → Nat
  | acc, [] => acc
  | acc, c :: rest => digitsToNat (acc * 10 + (c.toNat - 48)) rest

/-- Parses an integer JSON number (optional leading minus sign). -/
def parseNumber (cs : List Char) : Option (json × List Char) :=
  let signed :=
    match cs with
    | c :: rest => if c = '-' then (true, rest) else (false, cs)
    | [] => (false, cs)
  match takeDigits signed.2 with
  | ([], _) => none
  | (ds, rest) =>
    let n : Int := Int.ofNat (digitsToNat 0 ds)
    some (json.num (if signed.1 then -n else n), rest)

mutual

/-- Modelled from the spec: the implementation of the JSON parser is not
in src/.  Single-pass recursive-descent parse of one JSON value; any
syntax error makes the whole parse fail with `none`. -/
def parseValue : Nat → List Char → Option (json × List Char)
  | 0, _ => none
  | fuel + 1, cs =>
    match skipWs cs with
    | [] => none
    | c :: rest =>
      if c = '\x22' then
        match parseStringChars (fuel + 1) rest with
        | some (s, r) => some (json.str (String.mk s), r)
        | none => none
      else if c = '\x7b' then
        match parseMembers fuel rest with
        | some (ms, r) => some (json.obj ms, r)
        | none => none
      else if c = '[' then
        match parseElems fuel rest with
        | some (es, r) => some (json.arr es, r)
        | none => none
      else
        match c :: rest with
        | 't' :: 'r' :: 'u' :: 'e' :: r => some (json.boolean true, r)
        | 'f' :: 'a' :: 'l' :: 's' :: 'e' :: r => some (json.boolean false, r)
        | 'n' :: 'u' :: 'l' :: 'l' :: r => some (json.null, r)
        | l => parseNumber l

/-- Parses the members of a JSON object after its opening brace, up to
and including the closing brace. -/
def parseMembers : Nat → List Char → Option (List (String × json) × List Char)
  | 0, _ => none
  | fuel + 1, cs =>
    match skipWs cs with
    | [] => none
    | c :: rest =>
      if c = '\x7d' then some ([], rest)
      else if c = '\x22' then
        match parseStringChars (fuel + 1) rest with
        | some (name, r1) =>
          match skipWs r1 with
          | ':' :: r2 =>
            match parseValue fuel r2 with
            | some (v, r3) =>
              match skipWs r3 with
              | ',' :: r4 =>
                match parseMembers fuel r4 with
                | some (ms, r5) => some ((String.mk name, v) :: ms, r5)
                | none => none
              | '\x7d' :: r4 => some ([(String.mk name, v)], r4)
              | _ => none
            | none => none
          | _ => none
        | none => none
      else none

/-- Parses the elements of a JSON array after its opening bracket, up to
and including the closing bracket. -/
def parseElems : Nat → List Char → Option (List json × List Char)
  | 0, _ => none
  | fuel + 1, cs =>
    match skipWs cs with
    | [] => none
    | c :: rest =>
      if c = ']' then some ([], rest)
      else
        match parseValue fuel (c :: rest) with
        | some (v, r1) =>
          match skipWs r1 with
          | ',' :: r2 =>
            match parseElems fuel r2 with
            | some (es, r3) => some (v :: es, r3)
            | none => none
          | ']' :: r2 => some ([v], r2)
          | _ => none
        | none => none

end

/-- Modelled from the spec: the implementation of `json_parse` is not in
src/.  Parses a text string into a json document; returns `none` when
the text could not be parsed (including trailing non-whitespace), never
a partial tree.  Header contract: "a pointer to a json object, or NULL
if the text could not be parsed". -/
def json_parse (json_text : String) : Option json :=
  match parseValue (json_text.length + 2) json_text.data with
  | some (v, rest) => if skipWs rest = [] then some v else none
  | none => none

/-- Name lookup in the member list of an object. -/
def json_members_find : List (String × json) → String → Option json
  | [], _ => none
  | (k, v) :: rest, name => if k = name then some v else json_members_find rest name

/-- Modelled from the spec: member lookup applies only to object-typed
documents; looking a member up in an array or scalar document yields
"not found". -/
def json_find_member : json → String → Option json
  | json.obj ms, name => json_members_find ms name
  | _, _ => none

/-- Modelled from the spec: the implementation of `json_has_member` is
not in src/.  Header contract: "true if the named member exists, false
otherwise". -/
def json_has_member (j : json) (name : String) : Bool :=
  (json_find_member j name).isSome

/-- Tag of a JSON value. -/
def json_type_of : json → json_type
  | json.str _ => json_type.json_string
  | json.num _ => json_type.json_number
  | json.obj _ => json_type.json_object
  | json.arr _ => json_type.json_array
  | json.boolean _ => json_type.json_boolean
  | json.null => json_type.json_null

/-- Modelled from the spec: the implementation of `json_get_member_type`
is not in src/.  Header contract: "the type of the named member, or
json_null if it does not exist.  Note that json_null is also a valid
type". -/
def json_get_member_type (j : json) (name : String) : json_type :=
  match json_find_member j name with
  | some v => json_type_of v
  | none => json_type.json_null

/-- Modelled from the spec: the implementation of
`json_get_member_string` is not in src/.  Header contract: the member
value, or NULL if the named member does not exist or is not a suitable
type. -/
def json_get_member_string (j : json) (name : String) : Option String :=
  match json_find_member j name with
  | some (json.str s) => some s
  | _ => none

/-- Modelled from the spec: the implementation of
`json_get_member_object` is not in src/.  Header contract: the member,
or NULL if the named member is not a json object. -/
def json_get_member_object (j : json) (name : String) : Option json :=
  match json_find_member j name with
  | some (json.obj ms) => some (json.obj ms)
  | _ => none

/-! ### Configuration structures (from the header) -/

/-- Server level configuration structure, from `auth_urs_svr_config` in
the header.  The apr_uri_t server address is modelled as a string. -/
structure auth_urs_svr_config where
  session_store_path : String
  urs_auth_server : String
  urs_auth_path : String
  urs_token_path : String
  redirection_map : List (String × String)

/-- Directory level configuration structure, from `auth_urs_dir_config`
in the header.  Nullable strings are modelled as options; the anonymous
user name is `some` exactly when anonymous access is enabled. -/
structure auth_urs_dir_config where
  authorization_group : String
  client_id : String
  authorization_code : String
  anonymous_user : Option String
  redirect_url : String
  idle_timeout : Nat
  active_timeout : Nat
  check_ip_octets : Nat
  splash_disable : Bool
  user_profile_env : List (String × String)
  access_error_url : Option String

/-! ### Session store -/

/-- One persisted session record: the attribute table with its
distinguished entries (subject, creation time, last-access time, and
the client address at creation, as its numeric components). -/
structure SessionRec where
  uid : String
  created : Nat
  last_access : Nat
  ip : List Nat
  attrs : List (String × String)
deriving DecidableEq

/-- The session store: persisted records keyed by session id. -/
abbrev SessionStore := List (String × SessionRec)

/-- Success status of the portable runtime. -/
def APR_SUCCESS : Nat := 0

/-- Looks a session record up by id. -/
def store_lookup : SessionStore → String → Option SessionRec
  | [], _ => none
  | (k, v) :: rest, id => if k = id then some v else store_lookup rest id

/-- Removes every record keyed by the given id. -/
def store_remove (store : SessionStore) (auth_cookie : String) : SessionStore :=
  store.filter (fun e => e.1 != auth_cookie)

/-- Modelled from the spec: the implementation of `write_urs_session` is
not in src/.  Persists the session data under the given id, replacing
any previous record with that id; returns APR_SUCCESS. -/
def write_urs_session (store : SessionStore) (auth_cookie : String)
    (session_data : SessionRec) : Nat × SessionStore :=
  (APR_SUCCESS, (auth_cookie, session_data) :: store_remove store auth_cookie)

/-- Whether a session has exceeded its idle or its absolute timeout
(each check disabled when the configured value is 0). -/
def session_expired (config : auth_urs_dir_config) (now : Nat)
    (session : SessionRec) : Bool :=
  ((config.idle_timeout != 0) && decide (now - session.last_access > config.idle_timeout)) ||
  ((config.active_timeout != 0) && decide (now - session.created > config.active_timeout))

/-- Whether the current client address fails the session binding check
on the configured number of leading address components (disabled when
the configured count is 0). -/
def session_ip_mismatch (config : auth_urs_dir_config) (addr : List Nat)
    (session : SessionRec) : Bool :=
  (config.check_ip_octets != 0) &&
    (addr.take config.check_ip_octets != session.ip.take config.check_ip_octets)

/-- Modelled from the spec: the implementation of `read_urs_session` is
not in src/.  Loads the record for the id and applies the expiry policy
before returning: on an exceeded idle or absolute timeout, or a client
address mismatch on the configured number of leading components, the
record is deleted and the session is reported absent. -/
def read_urs_session (config : auth_urs_dir_config) (now : Nat)
    (addr : List Nat) (store : SessionStore) (auth_cookie : String) :
    Option SessionRec × SessionStore :=
  match store_lookup store auth_cookie with
  | none => (none, store)
  | some session =>
    if session_expired config now session || session_ip_mismatch config addr session then
      (none, store_remove store auth_cookie)
    else
      (some session, store)

/-- Modelled from the spec: the implementation of `destroy_urs_session`
is not in src/.  Deletes the session record; header contract: "@return
APR_SUCCESS", unconditionally, so deleting an absent session is not an
error. -/
def destroy_urs_session (store : SessionStore) (auth_cookie : String) :
    Nat × SessionStore :=
  (APR_SUCCESS, store_remove store auth_cookie)

/-! ### Authentication flow controller -/

/-- Outcome of one request through the authentication gate: pass the
request through (with an identity to inject), redirect (target, query
parameters, optional session cookie to set), or an HTTP error status. -/
inductive AuthOutcome where
  | pass : Option String → AuthOutcome
  | redirect : String → List (String × String) → Option (String × String) → AuthOutcome
  | httpError : Nat → AuthOutcome

/-- Modelled from the spec: the outcome of an access-denied or exchange
failure: redirect to the configured error URL, or the mapped HTTP
status when no error URL is configured. -/
def access_error_outcome (config : auth_urs_dir_config) : AuthOutcome :=
  match config.access_error_url with
  | some u => AuthOutcome.redirect u [] none
  | none => AuthOutcome.httpError 401

/-- Modelled from the spec: the implementation of
`auth_urs_check_user_id` is not in src/.  The main gate: anonymous
access when enabled and no cookie is present; otherwise a redirect to
the IDP authorization endpoint with client id, callback URL and a state
parameter URL-encoding the original request URL when no valid session
exists; otherwise pass with the session identity, touching the
last-access time. -/
def auth_urs_check_user_id (svr : auth_urs_svr_config)
    (config : auth_urs_dir_config) (requestUrl : String)
    (cookieHeader : String) (store : SessionStore) (now : Nat)
    (addr : List Nat) : AuthOutcome × SessionStore :=
  match get_cookie cookieHeader config.authorization_group with
  | none =>
    match config.anonymous_user with
    | some anon => (AuthOutcome.pass (some anon), store)
    | none =>
      (AuthOutcome.redirect (svr.urs_auth_server ++ svr.urs_auth_path)
        [("client_id", config.client_id),
         ("redirect_uri", config.redirect_url),
         ("state", String.mk (url_encode requestUrl.data))] none, store)
  | some sid =>
    match read_urs_session config now addr store sid with
    | (none, store2) =>
      (AuthOutcome.redirect (svr.urs_auth_server ++ svr.urs_auth_path)
        [("client_id", config.client_id),
         ("redirect_uri", config.redirect_url),
         ("state", String.mk (url_encode requestUrl.data))] none, store2)
    | (some session, store2) =>
      (AuthOutcome.pass (some session.uid),
       (write_urs_session store2 sid { session with last_access := now }).2)

/-- Modelled from the spec: the implementation of
`auth_urs_post_read_request_redirect` is not in src/.  The callback
path: extracts the `code` and `state` query parameters, exchanges the
code (the IDP token response body is passed in), parses the response,
and creates a session and redirects to the original URL only when the
response parses, carries no `error` member, and carries the identity
field; every failure leaves the store untouched and yields the error
redirect or a mapped HTTP status. -/
def auth_urs_post_read_request_redirect (config : auth_urs_dir_config)
    (store : SessionStore) (args : String) (tokenResponse : String)
    (newSessionId : String) (now : Nat) (addr : List Nat) :
    AuthOutcome × SessionStore :=
  match get_query_param args "code" with
  | none => (access_error_outcome config, store)
  | some _ =>
    match get_query_param args "state" with
    | none => (access_error_outcome config, store)
    | some st =>
      match json_parse tokenResponse with
      | none => (access_error_outcome config, store)
      | some doc =>
        if json_has_member doc "error" then (access_error_outcome config, store)
        else
          match json_get_member_string doc "uid" with
          | some uid =>
            (AuthOutcome.redirect (String.mk (url_decode st.data)) []
              (some (config.authorization_group, newSessionId)),
             (write_urs_session store newSessionId
               { uid := uid, created := now, last_access := now,
                 ip := addr, attrs := [("uid", uid)] }).2)
          | none => (access_error_outcome config, store)

/-! ### SSL transport interface -/

/-- Connection handle, from the opaque `ssl_connection` of the header. -/
structure ssl_connection where
  host : String
  port : Nat

/-- The three failure classes of establishing the TLS connection named
by the specification. -/
inductive ssl_failure where
  | dns_connect
  | tls_handshake
  | cert_validation

/-- Modelled from the spec: the implementation of `ssl_connect` is not
in src/.  The header declares its whole failure behaviour: "return a
pointer to an ssl_connection structure, or NULL on error", so a
connection attempt that fails — with any of the three failure classes —
returns the same NULL result. -/
def ssl_connect_failure_result (_f : ssl_failure) : Option ssl_connection :=
  none

/-! ### Concrete sample data used by the witnesses -/

/-- Sample server configuration. -/
def sampleSvrConfig : auth_urs_svr_config :=
  { session_store_path := "/var/session"
    urs_auth_server := "https://urs.example"
    urs_auth_path := "/oauth/authorize"
    urs_token_path := "/oauth/token"
    redirection_map := [] }

/-- Sample location configuration, anonymous access disabled, idle
timeout 600, absolute timeout 43200, two address components checked. -/
def sampleDirConfig : auth_urs_dir_config :=
  { authorization_group := "UrsAuth"
    client_id := "app123"
    authorization_code := "c2VjcmV0"
    anonymous_user := none
    redirect_url := "https://host.example/app/redirect"
    idle_timeout := 600
    active_timeout := 43200
    check_ip_octets := 2
    splash_disable := false
    user_profile_env := []
    access_error_url := some "https://host.example/error" }

/-- Sample session record. -/
def sampleSession : SessionRec :=
  { uid := "alice", created := 1000, last_access := 2000,
    ip := [10, 1, 2, 3], attrs := [] }

/-- Sample well-formed IDP token response. -/
def jsonExampleText : String := "\x7b\x22uid\x22:\x22alice\x22\x7d"

/-- Sample syntactically invalid IDP token response. -/
def jsonBadText : String := "\x7b\x22uid\x22:\x7d"

/-- Sample IDP token response reporting a failed exchange. -/
def jsonErrorText : String := "\x7b\x22error\x22:\x22invalid_grant\x22\x7d"

/-! ### Helper lemmas -/

theorem hexVal_hexDigitChar (n : Nat) (h : n < 16) :
    hexVal (hexDigitChar n) = some n := by
  interval_cases n <;> decide

theorem reserved_toNat_lt (c : Char) (h : isReserved c = true) : c.toNat < 256 := by
  have hm : c ∈ reservedChars := by
    simpa [isReserved] using h
  fin_cases hm <;> decide

theorem not_reserved_ne_percent (c : Char) (h : isReserved c = false) : ¬ c = '%' := by
  intro hc
  subst hc
  simp [isReserved, reservedChars] at h

/-- Decoding inverts encoding, character-list version. -/
theorem url_decode_encode (s : List Char) : url_decode (url_encode s) = s := by
  induction s with
  | nil => rfl
  | cons c rest ih =>
    by_cases hr : isReserved c = true
    · have hlt : c.toNat < 256 := reserved_toNat_lt c hr
      have hdiv : c.toNat / 16 < 16 := by omega
      have hmod : c.toNat % 16 < 16 := by omega
      simp only [url_encode, hr, if_true, url_decode, if_pos rfl,
        hexVal_hexDigitChar _ hdiv, hexVal_hexDigitChar _ hmod]
      rw [Nat.div_add_mod, Char.ofNat_toNat, ih]
    · have hr' : isReserved c = false := by
        simpa using hr
      have hne : ¬ c = '%' := not_reserved_ne_percent c hr'
      rw [url_encode, if_neg hr, url_decode.eq_def]
      simp [hne, ih]

/-- Removing a session id makes it unfindable. -/
theorem store_lookup_remove (store : SessionStore) (id : String) :
    store_lookup (store_remove store id) id = none := by
  induction store with
  | nil => rfl
  | cons e rest ih =>
    obtain ⟨k, v⟩ := e
    by_cases hk : k = id
    · simpa [store_remove, List.filter_cons, hk] using ih
    · simpa [store_remove, List.filter_cons, store_lookup, bne_iff_ne, hk] using ih

/-- Removing a session id twice is the same as removing it once. -/
theorem store_remove_remove (store : SessionStore) (id : String) :
    store_remove (store_remove store id) id = store_remove store id := by
  induction store with
  | nil => rfl
  | cons e rest ih =>
    by_cases hk : e.1 = id
    · simp only [store_remove, List.filter_cons, hk, bne_self_eq_false,
        Bool.false_eq_true, if_false] at ih ⊢
      exact ih
    · have hb : (e.1 != id) = true := by
        simpa [bne_iff_ne] using hk
      simp only [store_remove, List.filter_cons, hb, if_true] at ih ⊢
      exact congrArg (e :: ·) ih

/-! ### Claim theorems -/

/-- C9: for every URL string s, decoding the encoding round-trips:
url_decode (url_encode s) = s, so the state parameter built by
percent-encoding the original request URL recovers it exactly on the
callback. -/
theorem url_encode_decode_round_trip (s : String) :
    String.mk (url_decode (url_encode s.data)) = s := by
  rw [url_decode_encode]

/-- C5: destroying a session a second time after it has already been
destroyed is a no-op: it still returns APR_SUCCESS and leaves the
session store unchanged; destroying an absent session (the store is
arbitrary, and after the first call the id is certainly absent) is not
an error. -/
theorem destroy_urs_session_idempotent (store : SessionStore) (auth_cookie : String) :
    (destroy_urs_session store auth_cookie).1 = APR_SUCCESS ∧
    (destroy_urs_session (destroy_urs_session store auth_cookie).2 auth_cookie).1 = APR_SUCCESS ∧
    (destroy_urs_session (destroy_urs_session store auth_cookie).2 auth_cookie).2 =
      (destroy_urs_session store auth_cookie).2 := by
  refine ⟨rfl, rfl, ?_⟩
  simp only [destroy_urs_session]
  exact store_remove_remove store auth_cookie

/-- C8 counterexample: the claim says ssl_connect fails with a distinct,
distinguishable error for each of the three failure classes; per the
header its failure outcome is NULL, identical for all three classes at
these concrete inputs. -/
theorem ssl_connect_errors_not_distinct :
    ssl_connect_failure_result ssl_failure.dns_connect =
      ssl_connect_failure_result ssl_failure.tls_handshake ∧
    ssl_connect_failure_result ssl_failure.tls_handshake =
      ssl_connect_failure_result ssl_failure.cert_validation ∧
    ssl_connect_failure_result ssl_failure.dns_connect = none :=
  ⟨rfl, rfl, rfl⟩

/-- C8 amended: ssl_connect reports every failure class — DNS/connect
failure, TLS handshake failure, and certificate validation failure —
through one and the same undifferentiated outcome, the NULL (absent)
connection. -/
theorem ssl_connect_failure_uniform (f g : ssl_failure) :
    ssl_connect_failure_result f = none ∧
    ssl_connect_failure_result f = ssl_connect_failure_result g :=
  ⟨rfl, rfl⟩

/-- C10: get_query_param returns the no-value result exactly when the
named query parameter is absent or present with an empty value, and
get_cookie behaves the same way for cookies, so a caller cannot
distinguish an empty parameter or cookie from a missing one. -/
theorem empty_param_indistinguishable_from_absent (args cookieHeader name : String) :
    (get_query_param args name = none ↔
      (table_get (parse_query args) name = none ∨
       table_get (parse_query args) name = some "")) ∧
    (get_cookie cookieHeader name = none ↔
      (table_get (parse_cookies cookieHeader) name = none ∨
       table_get (parse_cookies cookieHeader) name = some "")) := by
  constructor
  · cases h : table_get (parse_query args) name with
    | none => simp [get_query_param, h]
    | some v =>
      by_cases hv : v = "" <;> simp [get_query_param, h, hv]
  · cases h : table_get (parse_cookies cookieHeader) name with
    | none => simp [get_cookie, h]
    | some v =>
      by_cases hv : v = "" <;> simp [get_cookie, h, hv]

/-- C7: on a parsed JSON object, json_get_member_type returns json_null
both for a member present with an explicit null value and for a
genuinely absent member, while json_has_member returns true in the
first case and false in the second, distinguishing them. -/
theorem member_type_null_indistinguishable (ms : List (String × json)) (name : String) :
    (json_find_member (json.obj ms) name = some json.null →
      json_get_member_type (json.obj ms) name = json_type.json_null ∧
      json_has_member (json.obj ms) name = true) ∧
    (json_find_member (json.obj ms) name = none →
      json_get_member_type (json.obj ms) name = json_type.json_null ∧
      json_has_member (json.obj ms) name = false) := by
  constructor
  · intro h
    refine ⟨?_, ?_⟩
    · simp [json_get_member_type, h, json_type_of]
    · simp [json_has_member, h]
  · intro h
    refine ⟨?_, ?_⟩
    · simp [json_get_member_type, h]
    · simp [json_has_member, h]

/-- C7 witness: a member bound to an explicit null and an absent member
both report type json_null, and json_has_member tells them apart. -/
theorem member_type_null_indistinguishable_witness :
    (json_get_member_type (json.obj [("a", json.null)]) "a" = json_type.json_null ∧
     json_has_member (json.obj [("a", json.null)]) "a" = true) ∧
    (json_get_member_type (json.obj [("a", json.null)]) "b" = json_type.json_null ∧
     json_has_member (json.obj [("a", json.null)]) "b" = false) :=
  ⟨(member_type_null_indistinguishable [("a", json.null)] "a").1 rfl,
   (member_type_null_indistinguishable [("a", json.null)] "b").2 rfl⟩

/-- C2: reading a session whose idle timeout T is enabled, when now
minus its last-access timestamp exceeds T, reports the session absent,
deletes the persisted record, and any direct subsequent read also
reports it absent. -/
theorem read_urs_session_idle_expired (config : auth_urs_dir_config)
    (now : Nat) (addr : List Nat) (store : SessionStore) (id : String)
    (session : SessionRec)
    (hfind : store_lookup store id = some session)
    (hidle : config.idle_timeout ≠ 0)
    (hexp : now - session.last_access > config.idle_timeout) :
    (read_urs_session config now addr store id).1 = none ∧
    store_lookup (read_urs_session config now addr store id).2 id = none ∧
    (read_urs_session config now addr
      (read_urs_session config now addr store id).2 id).1 = none := by
  have hexpired : session_expired config now session = true := by
    simp [session_expired, bne_iff_ne, hidle, hexp]
  have hread : read_urs_session config now addr store id = (none, store_remove store id) := by
    unfold read_urs_session
    rw [hfind]
    simp [hexpired]
  refine ⟨by rw [hread], ?_, ?_⟩
  · rw [hread]
    exact store_lookup_remove store id
  · rw [hread]
    unfold read_urs_session
    rw [store_lookup_remove]

/-- C2 witness: with idle timeout 600 and last access at 2000, a read at
2700 reports the session absent. -/
theorem read_urs_session_idle_expired_witness :
    store_lookup [("sid1", sampleSession)] "sid1" = some sampleSession ∧
    sampleDirConfig.idle_timeout ≠ 0 ∧
    2700 - sampleSession.last_access > sampleDirConfig.idle_timeout ∧
    (read_urs_session sampleDirConfig 2700 [10, 1, 2, 3]
      [("sid1", sampleSession)] "sid1").1 = none :=
  ⟨rfl, by decide, by decide,
   (read_urs_session_idle_expired sampleDirConfig 2700 [10, 1, 2, 3]
     [("sid1", sampleSession)] "sid1" sampleSession rfl (by decide) (by decide)).1⟩

/-- C4: with address binding on N leading components enabled and the
session otherwise unexpired, a read from an address differing from the
recorded one within the first N components reports the session absent,
while a read from an address agreeing on the first N components reports
it valid and returns its attributes. -/
theorem read_urs_session_address_binding (config : auth_urs_dir_config)
    (now : Nat) (addr : List Nat) (store : SessionStore) (id : String)
    (session : SessionRec)
    (hfind : store_lookup store id = some session)
    (hN : config.check_ip_octets ≠ 0)
    (hnotexp : session_expired config now session = false) :
    (addr.take config.check_ip_octets ≠ session.ip.take config.check_ip_octets →
      (read_urs_session config now addr store id).1 = none) ∧
    (addr.take config.check_ip_octets = session.ip.take config.check_ip_octets →
      (read_urs_session config now addr store id).1 = some session) := by
  constructor
  · intro hmm
    have hmb : session_ip_mismatch config addr session = true := by
      simp [session_ip_mismatch, bne_iff_ne, hN, hmm]
    simp [read_urs_session, hfind, hmb]
  · intro heq
    have hmb : session_ip_mismatch config addr session = false := by
      simp [session_ip_mismatch, heq]
    simp [read_urs_session, hfind, hmb, hnotexp]

/-- C4 witness: binding on 2 leading components of [10, 1, 2, 3], a read
from [10, 9, 9, 9] is absent while a read from [10, 1, 250, 250] (which
differs only beyond the first two components) is valid. -/
theorem read_urs_session_address_binding_witness :
    (read_urs_session sampleDirConfig 2100 [10, 9, 9, 9]
      [("sid1", sampleSession)] "sid1").1 = none ∧
    (read_urs_session sampleDirConfig 2100 [10, 1, 250, 250]
      [("sid1", sampleSession)] "sid1").1 = some sampleSession :=
  ⟨(read_urs_session_address_binding sampleDirConfig 2100 [10, 9, 9, 9]
      [("sid1", sampleSession)] "sid1" sampleSession rfl (by decide) (by decide)).1
      (by decide),
   (read_urs_session_address_binding sampleDirConfig 2100 [10, 1, 250, 250]
      [("sid1", sampleSession)] "sid1" sampleSession rfl (by decide) (by decide)).2
      (by decide)⟩

/-- C1: for every location configuration, a request carrying no session
cookie for the location's authorization group, with anonymous access
not enabled, yields a redirect to the configured IDP authorization
endpoint — never the protected content — whose state query parameter
URL-decodes back to exactly the original request URL. -/
theorem check_user_id_no_cookie_redirects (svr : auth_urs_svr_config)
    (config : auth_urs_dir_config) (requestUrl : String)
    (cookieHeader : String) (store : SessionStore) (now : Nat)
    (addr : List Nat)
    (hanon : config.anonymous_user = none)
    (hcookie : get_cookie cookieHeader config.authorization_group = none) :
    (auth_urs_check_user_id svr config requestUrl cookieHeader store now addr).1 =
      AuthOutcome.redirect (svr.urs_auth_server ++ svr.urs_auth_path)
        [("client_id", config.client_id),
         ("redirect_uri", config.redirect_url),
         ("state", String.mk (url_encode requestUrl.data))] none ∧
    (∀ u, (auth_urs_check_user_id svr config requestUrl cookieHeader store now addr).1 ≠
      AuthOutcome.pass u) ∧
    table_get [("client_id", config.client_id),
         ("redirect_uri", config.redirect_url),
         ("state", String.mk (url_encode requestUrl.data))] "state" =
      some (String.mk (url_encode requestUrl.data)) ∧
    String.mk (url_decode (String.mk (url_encode requestUrl.data)).data) = requestUrl := by
  have hout : auth_urs_check_user_id svr config requestUrl cookieHeader store now addr =
      (AuthOutcome.redirect (svr.urs_auth_server ++ svr.urs_auth_path)
        [("client_id", config.client_id),
         ("redirect_uri", config.redirect_url),
         ("state", String.mk (url_encode requestUrl.data))] none, store) := by
    unfold auth_urs_check_user_id
    rw [hcookie, hanon]
  refine ⟨by rw [hout], ?_, ?_, ?_⟩
  · intro u h
    rw [hout] at h
    exact AuthOutcome.noConfusion h
  · have h1 : ¬ ("client_id" : String) = "state" := by decide
    have h2 : ¬ ("redirect_uri" : String) = "state" := by decide
    simp [table_get, h1, h2]
  · show String.mk (url_decode (url_encode requestUrl.data)) = requestUrl
    rw [url_decode_encode]

/-- C1 witness: with anonymous access disabled and an empty Cookie
header, the sample configuration redirects to the IDP authorization
endpoint with the encoded original URL as state. -/
theorem check_user_id_no_cookie_redirects_witness :
    sampleDirConfig.anonymous_user = none ∧
    get_cookie "" sampleDirConfig.authorization_group = none ∧
    (auth_urs_check_user_id sampleSvrConfig sampleDirConfig "/app/page" "" [] 5
      [10, 1, 2, 3]).1 =
      AuthOutcome.redirect
        (sampleSvrConfig.urs_auth_server ++ sampleSvrConfig.urs_auth_path)
        [("client_id", sampleDirConfig.client_id),
         ("redirect_uri", sampleDirConfig.redirect_url),
         ("state", String.mk (url_encode ("/app/page" : String).data))] none :=
  ⟨rfl, rfl,
   (check_user_id_no_cookie_redirects sampleSvrConfig sampleDirConfig "/app/page" ""
     [] 5 [10, 1, 2, 3] rfl rfl).1⟩

/-- C3: a callback whose token exchange ends in an IDP-reported failure
(explicit error member, as a consumed authorization code produces) or a
malformed, unparseable response creates no session — the store is left
exactly as it was — and the outcome is a redirect to the configured
error URL, or an HTTP error status when none is configured; the
function is total, so it never crashes. -/
theorem callback_failure_creates_no_session (config : auth_urs_dir_config)
    (store : SessionStore) (args tokenResponse newSessionId : String)
    (now : Nat) (addr : List Nat)
    (hfail : json_parse tokenResponse = none ∨
      ∃ d, json_parse tokenResponse = some d ∧ json_has_member d "error" = true) :
    (auth_urs_post_read_request_redirect config store args tokenResponse
      newSessionId now addr).2 = store ∧
    ((∃ u, config.access_error_url = some u ∧
       (auth_urs_post_read_request_redirect config store args tokenResponse
         newSessionId now addr).1 = AuthOutcome.redirect u [] none) ∨
     (config.access_error_url = none ∧
       (auth_urs_post_read_request_redirect config store args tokenResponse
         newSessionId now addr).1 = AuthOutcome.httpError 401)) := by
  have key : auth_urs_post_read_request_redirect config store args tokenResponse
      newSessionId now addr = (access_error_outcome config, store) := by
    unfold auth_urs_post_read_request_redirect
    cases hcode : get_query_param args "code" with
    | none => rfl
    | some c =>
      cases hstate : get_query_param args "state" with
      | none => rfl
      | some st =>
        rcases hfail with hnone | ⟨d, hd, herr⟩
        · rw [hnone]
        · rw [hd]
          simp [herr]
  refine ⟨by rw [key], ?_⟩
  rw [key]
  cases hu : config.access_error_url with
  | some u => exact Or.inl ⟨u, rfl, by simp [access_error_outcome, hu]⟩
  | none => exact Or.inr ⟨rfl, by simp [access_error_outcome, hu]⟩

/-- C3 witness: a token response reporting invalid_grant (as a
second exchange of an already-consumed code produces) creates no
session and redirects to the configured error URL. -/
theorem callback_failure_creates_no_session_witness :
    (json_parse jsonErrorText = none ∨
      ∃ d, json_parse jsonErrorText = some d ∧ json_has_member d "error" = true) ∧
    (auth_urs_post_read_request_redirect sampleDirConfig []
      "code=ABC&state=%2Fapp%2Fpage" jsonErrorText "sid9" 0 [10, 1, 2, 3]).2 = [] ∧
    ((∃ u, sampleDirConfig.access_error_url = some u ∧
       (auth_urs_post_read_request_redirect sampleDirConfig []
         "code=ABC&state=%2Fapp%2Fpage" jsonErrorText "sid9" 0 [10, 1, 2, 3]).1 =
         AuthOutcome.redirect u [] none) ∨
     (sampleDirConfig.access_error_url = none ∧
       (auth_urs_post_read_request_redirect sampleDirConfig []
         "code=ABC&state=%2Fapp%2Fpage" jsonErrorText "sid9" 0 [10, 1, 2, 3]).1 =
         AuthOutcome.httpError 401)) :=
  have hfail : json_parse jsonErrorText = none ∨
      ∃ d, json_parse jsonErrorText = some d ∧ json_has_member d "error" = true :=
    Or.inr ⟨json.obj [("error", json.str "invalid_grant")], rfl, rfl⟩
  ⟨hfail,
   (callback_failure_creates_no_session sampleDirConfig []
     "code=ABC&state=%2Fapp%2Fpage" jsonErrorText "sid9" 0 [10, 1, 2, 3] hfail).1,
   (callback_failure_creates_no_session sampleDirConfig []
     "code=ABC&state=%2Fapp%2Fpage" jsonErrorText "sid9" 0 [10, 1, 2, 3] hfail).2⟩

/-- C6: json_parse either returns a complete parsed document or the
no-document result; every truncation of the sample valid text fails
outright rather than producing a partial tree, the full text parses to
the complete document, and a syntactically invalid text yields no
document. -/
theorem json_parse_complete_or_none :
    (∀ text : String, json_parse text = none ∨ ∃ d, json_parse text = some d) ∧
    json_parse jsonExampleText = some (json.obj [("uid", json.str "alice")]) ∧
    ((List.range 15).all
      (fun n => (json_parse (String.mk (jsonExampleText.data.take n))).isNone)) = true ∧
    json_parse jsonBadText = none := by
  refine ⟨?_, rfl, by decide, rfl⟩
  intro text
  cases h : json_parse text with
  | none => exact Or.inl rfl
  | some d => exact Or.inr ⟨d, rfl⟩
